import Mathlib

/-!
Shallow embedding of the risk-scoring / fraud-detection subsystem of the
event-management API (services `FraudDetectionService`,
`EventSecurityService`, `AuditLogService`), together with theorems checking
the natural-language specification against the code.

Conventions of the embedding:
* JavaScript numbers arising in the scoring arithmetic are modelled as `ℚ`
  (every value reached by the scoring code is a small dyadic rational, so
  `ℚ` models the float arithmetic exactly).
* Timestamps are milliseconds since an arbitrary origin, modelled as `ℕ`.
* A possibly-absent field (`log.details?.location` and friends) is an
  `Option String`; the JavaScript value `undefined` is `none`.
* Database aggregations are modelled as list operations over the in-window
  documents, following the aggregation pipelines in the source.
-/

/-- An audit-log document, following the `AuditLogSchema` of
`auditLogService.js`: `action`, `success`, `timestamp`, `ipAddress`,
`user.id`, and the `details` payload fields read by the fraud detector
(`details?.location`, `details?.userAgent`). -/
structure AuditEvent where
  action : String
  success : Bool
  timestamp : Nat
  ipAddress : Option String
  userId : Option String
  location : Option String
  userAgent : Option String
deriving DecidableEq

/-- The user fields read by the services: `createdAt` (millis) and
`registeredEvents`. -/
structure User where
  createdAt : Nat
  registeredEvents : List String
deriving DecidableEq

/-- The event fields read by the services: `participants`, `capacity`,
`createdAt` (millis). -/
structure EventDoc where
  participants : List String
  capacity : Nat
  createdAt : Nat
deriving DecidableEq

/-- JavaScript `Math.min` on the (finite) numbers reached by the scoring
code. -/
def mathMin (a b : ℚ) : ℚ := if a ≤ b then a else b

/-- JavaScript `Math.max` on the (finite) numbers reached by the scoring
code. -/
def mathMax (a b : ℚ) : ℚ := if a ≤ b then b else a

/-- The JavaScript truthiness filter `.filter(Boolean)` applied to an
optional string: drops `undefined` and the empty string (both falsy). -/
def truthyString : Option String → Option String
  | none => none
  | some s => if s = "" then none else some s

/-- One day (`24 * 3600 * 1000`) in milliseconds. -/
def dayMillis : Nat := 86400000

namespace FraudDetectionService

/-- Risk levels returned by `determineRiskLevel` (and, without `CRITICAL`,
by `assessRegistrationRisk`). -/
inductive RiskLevel where
  | LOW
  | MEDIUM
  | HIGH
  | CRITICAL
deriving DecidableEq

/-- Position of a risk level in the `LOW < MEDIUM < HIGH < CRITICAL`
order. -/
def levelIndex : RiskLevel → Nat
  | .LOW => 0
  | .MEDIUM => 1
  | .HIGH => 2
  | .CRITICAL => 3

/-- `(now - user.createdAt) / (1000 * 3600 * 24)`: account age in days,
exact rational division as in the source. -/
def accountAgeInDays (now : Nat) (user : User) : ℚ :=
  ((now : ℚ) - (user.createdAt : ℚ)) / (1000 * 3600 * 24)

/-- The two account-age additions of `calculateRiskScore`:
`if (accountAgeInDays < 30) riskScore += 3; if (accountAgeInDays < 60)
riskScore += 2;` — two independent `if`s on the same accumulator. -/
def ageSignal (now : Nat) (user : User) : ℚ :=
  (if accountAgeInDays now user < 30 then 3 else 0) +
  (if accountAgeInDays now user < 60 then 2 else 0)

/-- `activities.filter(log => log.action === 'LOGIN_ATTEMPT' &&
!log.success)`. -/
def failedLogins (activities : List AuditEvent) : List AuditEvent :=
  activities.filter (fun log => log.action == "LOGIN_ATTEMPT" && !log.success)

/-- `Math.min(failedLogins.length * 0.5, 2)`. -/
def failedLoginSignal (activities : List AuditEvent) : ℚ :=
  mathMin ((failedLogins activities).length * (1 / 2)) 2

/-- `new Set(activities.map(log => log.details?.location).filter(Boolean))`:
the distinct truthy locations. -/
def uniqueLoginLocations (activities : List AuditEvent) : List String :=
  ((activities.map (fun log => log.location)).filterMap truthyString).dedup

/-- `if (uniqueLoginLocations.size > 3) riskScore += 1`. -/
def locationSignal (activities : List AuditEvent) : ℚ :=
  if 3 < (uniqueLoginLocations activities).length then 1 else 0

/-- `new Set(activities.map(log => log.details?.userAgent).filter(Boolean))`:
the distinct truthy user agents. -/
def uniqueDevices (activities : List AuditEvent) : List String :=
  ((activities.map (fun log => log.userAgent)).filterMap truthyString).dedup

/-- `if (uniqueDevices.size > 3) riskScore += 1`. -/
def deviceSignal (activities : List AuditEvent) : ℚ :=
  if 3 < (uniqueDevices activities).length then 1 else 0

/-- `activities.filter(log => log.action === 'LOGIN_ATTEMPT')
.map(log => new Date(log.timestamp))`. -/
def loginTimestamps (activities : List AuditEvent) : List Nat :=
  (activities.filter (fun log => log.action == "LOGIN_ATTEMPT")).map
    (fun log => log.timestamp)

/-- `Math.abs(time - prev)` over consecutive elements: the list of gaps
between each element and its predecessor. -/
def pairGaps (prev : Nat) : List Nat → List Nat
  | [] => []
  | t :: ts => (max prev t - min prev t) :: pairGaps t ts

/-- `loginTimestamps.map((time, index) => index > 0 ?
Math.abs(time - loginTimestamps[index - 1]) : 0)`: the first element is
mapped to the constant `0`, the rest to the gap to their predecessor. -/
def timeDifferences : List Nat → List Nat
  | [] => []
  | t :: ts => 0 :: pairGaps t ts

/-- `diff < 60000 || diff > 86400000` — the filter the source labels
"Unusual time gaps". -/
def isIrregularGap (diff : Nat) : Bool :=
  diff < 60000 || diff > 86400000

/-- `timeDifferences.filter(diff => diff < 60000 || diff > 86400000)
.length`. -/
def irregularTimePatternCount (activities : List AuditEvent) : Nat :=
  ((timeDifferences (loginTimestamps activities)).filter isIrregularGap).length

/-- `if (irregularTimePatterns.length > 2) riskScore += 1`. -/
def timeSignal (activities : List AuditEvent) : ℚ :=
  if 2 < irregularTimePatternCount activities then 1 else 0

/-- Sum of all the additions to the `riskScore` accumulator in
`calculateRiskScore`, before normalisation. -/
def rawRiskScore (now : Nat) (user : User) (activities : List AuditEvent) : ℚ :=
  ageSignal now user + failedLoginSignal activities +
    locationSignal activities + deviceSignal activities +
    timeSignal activities

/-- `FraudDetectionService.calculateRiskScore(user, activities)`:
the accumulated signals, normalised by
`Math.min(Math.max(riskScore, 0), 10)`. `now` is the `new Date()` the
source takes at entry. -/
def calculateRiskScore (now : Nat) (user : User)
    (activities : List AuditEvent) : ℚ :=
  mathMin (mathMax (rawRiskScore now user activities) 0) 10

/-- `FraudDetectionService.determineRiskLevel(riskScore)`. -/
def determineRiskLevel (riskScore : ℚ) : RiskLevel :=
  if riskScore ≤ 2 then .LOW
  else if riskScore ≤ 5 then .MEDIUM
  else if riskScore ≤ 7 then .HIGH
  else .CRITICAL

end FraudDetectionService

namespace FraudDetectionService

theorem ageSignal_nonneg (now : Nat) (user : User) :
    0 ≤ ageSignal now user := by
  unfold ageSignal; split_ifs <;> norm_num

theorem failedLoginSignal_nonneg (activities : List AuditEvent) :
    0 ≤ failedLoginSignal activities := by
  unfold failedLoginSignal mathMin
  split_ifs with h
  · positivity
  · norm_num

theorem locationSignal_nonneg (activities : List AuditEvent) :
    0 ≤ locationSignal activities := by
  unfold locationSignal; split_ifs <;> norm_num

theorem deviceSignal_nonneg (activities : List AuditEvent) :
    0 ≤ deviceSignal activities := by
  unfold deviceSignal; split_ifs <;> norm_num

theorem timeSignal_nonneg (activities : List AuditEvent) :
    0 ≤ timeSignal activities := by
  unfold timeSignal; split_ifs <;> norm_num

/-- The sum of signals is non-negative. -/
theorem rawRiskScore_nonneg (now : Nat) (user : User)
    (activities : List AuditEvent) : 0 ≤ rawRiskScore now user activities := by
  have h1 := ageSignal_nonneg now user
  have h2 := failedLoginSignal_nonneg activities
  have h3 := locationSignal_nonneg activities
  have h4 := deviceSignal_nonneg activities
  have h5 := timeSignal_nonneg activities
  unfold rawRiskScore
  linarith

end FraudDetectionService

/-- C1: for every user and activity list, `calculateRiskScore` lands in
`[0, 10]`, and `determineRiskLevel` is a monotone function of the score
with exactly the thresholds: `score ≤ 2 → LOW`, `≤ 5 → MEDIUM`,
`≤ 7 → HIGH`, otherwise `CRITICAL` (it is a function of the score alone,
hence deterministic). -/
theorem riskScore_bounded_and_level_thresholds :
    (∀ (now : Nat) (user : User) (activities : List AuditEvent),
      0 ≤ FraudDetectionService.calculateRiskScore now user activities ∧
      FraudDetectionService.calculateRiskScore now user activities ≤ 10) ∧
    (∀ s t : ℚ, s ≤ t →
      FraudDetectionService.levelIndex (FraudDetectionService.determineRiskLevel s) ≤
      FraudDetectionService.levelIndex (FraudDetectionService.determineRiskLevel t)) ∧
    (∀ s : ℚ,
      (s ≤ 2 → FraudDetectionService.determineRiskLevel s = .LOW) ∧
      (2 < s → s ≤ 5 → FraudDetectionService.determineRiskLevel s = .MEDIUM) ∧
      (5 < s → s ≤ 7 → FraudDetectionService.determineRiskLevel s = .HIGH) ∧
      (7 < s → FraudDetectionService.determineRiskLevel s = .CRITICAL)) := by
  refine ⟨fun now user activities => ?_, fun s t hst => ?_, fun s => ?_⟩
  · unfold FraudDetectionService.calculateRiskScore mathMin mathMax
    have h0 := FraudDetectionService.rawRiskScore_nonneg now user activities
    split_ifs <;> constructor <;> linarith
  · unfold FraudDetectionService.determineRiskLevel
    split_ifs <;>
      simp [FraudDetectionService.levelIndex] <;> linarith
  · unfold FraudDetectionService.determineRiskLevel
    refine ⟨fun h => ?_, fun h1 h2 => ?_, fun h1 h2 => ?_, fun h => ?_⟩ <;>
      split_ifs <;> first | rfl | linarith

namespace FraudDetectionService

/-- The gaps between actual consecutive pairs of a timestamp list (no
entry for the first element). -/
def consecutiveGaps : List Nat → List Nat
  | [] => []
  | t :: ts => pairGaps t ts

/-- Stated from the spec's words ("irregular time gaps between consecutive
login timestamps"): the number of gaps between actual consecutive login
timestamps that are below 60 s or above 24 h. To be compared with
`irregularTimePatternCount`, which the code computes. -/
def specIrregularGapCount (activities : List AuditEvent) : Nat :=
  ((consecutiveGaps (loginTimestamps activities)).filter isIrregularGap).length

/-- The code's irregular-gap count is the consecutive-pair count plus one
extra entry (the constant `0` the source maps the first timestamp to, which
always passes the `diff < 60000` filter) whenever any login exists. -/
theorem irregularTimePatternCount_eq (activities : List AuditEvent) :
    irregularTimePatternCount activities =
      specIrregularGapCount activities +
        (if loginTimestamps activities = [] then 0 else 1) := by
  unfold irregularTimePatternCount specIrregularGapCount
  cases h : loginTimestamps activities with
  | nil => simp [timeDifferences, consecutiveGaps]
  | cons t ts =>
    simp [timeDifferences, consecutiveGaps, List.filter_cons,
      show isIrregularGap 0 = true from rfl]

end FraudDetectionService

/-- A three-login activity trace with exactly two consecutive gaps, both of
10 s (hence both irregular per the < 60 s rule). -/
def threeQuickLogins : List AuditEvent :=
  [⟨"LOGIN_ATTEMPT", true, 0, none, some "user-1", none, none⟩,
   ⟨"LOGIN_ATTEMPT", true, 10000, none, some "user-1", none, none⟩,
   ⟨"LOGIN_ATTEMPT", true, 20000, none, some "user-1", none, none⟩]

/-- C7 counterexample: on `threeQuickLogins` only 2 consecutive login gaps
are irregular — per the claim the +1 must not fire — yet the code counts 3
irregular entries (the phantom leading `0` also passes the filter) and adds
the +1: for an account 100 days old the whole risk score becomes 1 instead
of the claim's 0. -/
theorem timeSignal_claim_counterexample :
    FraudDetectionService.specIrregularGapCount threeQuickLogins = 2 ∧
    FraudDetectionService.irregularTimePatternCount threeQuickLogins = 3 ∧
    FraudDetectionService.timeSignal threeQuickLogins = 1 ∧
    FraudDetectionService.calculateRiskScore (100 * dayMillis) ⟨0, []⟩
      threeQuickLogins = 1 := by
  refine ⟨by decide, by decide, ?_, ?_⟩
  · unfold FraudDetectionService.timeSignal
    rw [if_pos (by decide)]
  · unfold FraudDetectionService.calculateRiskScore mathMin mathMax
    have hage : ¬ FraudDetectionService.accountAgeInDays (100 * dayMillis)
        ⟨0, []⟩ < 60 := by
      unfold FraudDetectionService.accountAgeInDays dayMillis
      norm_num
    have hage30 : ¬ FraudDetectionService.accountAgeInDays (100 * dayMillis)
        ⟨0, []⟩ < 30 := by
      unfold FraudDetectionService.accountAgeInDays dayMillis
      norm_num
    unfold FraudDetectionService.rawRiskScore FraudDetectionService.ageSignal
      FraudDetectionService.failedLoginSignal FraudDetectionService.locationSignal
      FraudDetectionService.deviceSignal FraudDetectionService.timeSignal mathMin
    rw [if_neg hage, if_neg hage30]
    norm_num [show FraudDetectionService.failedLogins threeQuickLogins = []
        from rfl,
      show FraudDetectionService.uniqueLoginLocations threeQuickLogins = []
        from rfl,
      show FraudDetectionService.uniqueDevices threeQuickLogins = [] from rfl,
      show FraudDetectionService.irregularTimePatternCount threeQuickLogins = 3
        from rfl]

/-- C7 (amended): the code's +1 time signal fires iff at least one login
timestamp exists and the number of irregular gaps between actual
consecutive login timestamps is at least 2 (not strictly more than 2 as
claimed): the source also counts the constant `0` entry produced for the
first login timestamp, which always satisfies `diff < 60000`. -/
theorem timeSignal_fires_iff :
    ∀ activities : List AuditEvent,
      (FraudDetectionService.irregularTimePatternCount activities =
        FraudDetectionService.specIrregularGapCount activities +
          (if FraudDetectionService.loginTimestamps activities = [] then 0
           else 1)) ∧
      (FraudDetectionService.timeSignal activities = 1 ↔
        FraudDetectionService.loginTimestamps activities ≠ [] ∧
        2 ≤ FraudDetectionService.specIrregularGapCount activities) := by
  intro activities
  refine ⟨FraudDetectionService.irregularTimePatternCount_eq activities, ?_⟩
  unfold FraudDetectionService.timeSignal
  rw [FraudDetectionService.irregularTimePatternCount_eq activities]
  by_cases h : FraudDetectionService.loginTimestamps activities = []
  · have hs : FraudDetectionService.specIrregularGapCount activities = 0 := by
      unfold FraudDetectionService.specIrregularGapCount
      rw [h]
      rfl
    simp [h, hs]
  · simp only [if_neg h]
    constructor
    · intro h1
      by_cases hc :
          2 < FraudDetectionService.specIrregularGapCount activities + 1
      · exact ⟨h, by omega⟩
      · rw [if_neg hc] at h1
        norm_num at h1
    · rintro ⟨-, h2⟩
      rw [if_pos (by omega)]

namespace AuditLogService

/-- A page object as `mongoose-paginate-v2` would return it
(`{ docs, ... }`). -/
structure Page where
  docs : List AuditEvent
  page : Nat
  limit : Nat
deriving DecidableEq

/-- The options object `AuditLogService.getLogs` destructures. Only
`page`, `limit` and `sort` are read (each with a default applied when the
key is absent); every other key — such as the `$group` pipeline object
`detectIPBasedFraud` passes as its second argument — is silently
discarded. `sort` and `groupStage` are carried as opaque payloads. -/
structure GetLogsOptions where
  page : Option Nat
  limit : Option Nat
  sort : Option String
  groupStage : Option String
deriving DecidableEq

/-- The `paginate` method of the `AuditLog` model. The
`mongoose-paginate-v2` plugin is applied to `EventSchema` only
(`EventSchema.plugin(mongoosePaginate)` in `Event.js`); no plugin is ever
applied to `AuditLogSchema`, so `AuditLog.paginate` is `undefined`:
`none` here. -/
def auditLogPaginate :
    Option ((AuditEvent → Bool) → Nat → Nat → List AuditEvent → Page) :=
  none

/-- `AuditLogService.getLogs(filters, options)` over the store `store`:
destructure `page`/`limit`/`sort` with their defaults — discarding every
other key of `options` — then call `AuditLog.paginate(filters, { page,
limit, sort })` inside `try { ... } catch { re-throw }`. Since the model
has no `paginate` method, the call throws a `TypeError`, which the catch
logs and re-throws. -/
def getLogs (store : List AuditEvent) (filters : AuditEvent → Bool)
    (options : GetLogsOptions) : Except String Page :=
  match auditLogPaginate with
  | some paginate =>
      Except.ok
        (paginate filters (options.page.getD 1) (options.limit.getD 50) store)
  | none => Except.error "TypeError: AuditLog.paginate is not a function"

end AuditLogService

namespace FraudDetectionService

/-- The `$group` pipeline document `detectIPBasedFraud` builds
(`_id: '$ipAddress', failedAttempts: { $sum: 1 }, uniqueUsers:
{ $addToSet: '$user.id' }, actions: { $push: '$action' }`), carried as an
opaque payload: it is passed where `getLogs` reads only
`page`/`limit`/`sort`, so it is never interpreted. -/
def ipGroupStage : String :=
  "$group: _id $ipAddress, failedAttempts $sum 1, uniqueUsers $addToSet"

/-- `FraudDetectionService.detectIPBasedFraud()` over the audit store: the
call `AuditLogService.getLogs({ timestamp: { $gte: now - 24h }, success:
false }, { $group: ... })` inside `try { ... } catch { re-throw }`. The
fetch always throws (the `AuditLog` model has no `paginate`), so the
`suspiciousIPs = ipFraudDetection.filter(...)` line, the audit write and
the `return { suspiciousIPs, timestamp }` are dead code behind it — and
the filter line would itself throw, since a page object has no `.filter`
and its docs carry no `failedAttempts`/`uniqueUsers` fields; the catch
re-throws the error. -/
def detectIPBasedFraud (store : List AuditEvent) (now : Nat) :
    Except String AuditLogService.Page :=
  AuditLogService.getLogs store
    (fun e => !e.success && decide (now - dayMillis ≤ e.timestamp))
    ⟨none, none, none, some ipGroupStage⟩

end FraudDetectionService

/-- Twelve failed login events from IP `10.0.0.5`, alternating between two
user ids, all inside the trailing 24-hour window of `now = dayMillis`. -/
def twelveFailuresTwoUsers : List AuditEvent :=
  (List.range 12).map (fun i =>
    ⟨"LOGIN_ATTEMPT", false, dayMillis + i, some "10.0.0.5",
      some (if i % 2 = 0 then "user-1" else "user-2"), none, none⟩)

/-- C2 (code bug): `detectIPBasedFraud` can never flag an IP. The `$group`
pipeline is passed as `getLogs`' options object, of which only
`page`/`limit`/`sort` are read, and the query itself throws because the
`AuditLog` model has no `paginate` method; every call returns the
re-thrown `TypeError` — also on a store holding 12 in-window failed
logins from IP `10.0.0.5` out of 2 distinct subjects, which the claim
says must be flagged. -/
theorem detectIPBasedFraud_never_flags :
    (∀ (store : List AuditEvent) (now : Nat),
      FraudDetectionService.detectIPBasedFraud store now =
        Except.error "TypeError: AuditLog.paginate is not a function") ∧
    FraudDetectionService.detectIPBasedFraud twelveFailuresTwoUsers
      dayMillis =
      Except.error "TypeError: AuditLog.paginate is not a function" ∧
    twelveFailuresTwoUsers.countP (fun e =>
      decide (e.ipAddress = some "10.0.0.5") && !e.success &&
        decide (dayMillis - dayMillis ≤ e.timestamp)) = 12 ∧
    ((twelveFailuresTwoUsers.filter (fun e =>
        decide (e.ipAddress = some "10.0.0.5"))).map
      (fun e => e.userId)).dedup.length = 2 :=
  ⟨fun _ _ => rfl, rfl, by decide, by decide⟩

/-- C6: for every account younger than 30 days both account-age additions
fire (+3 for < 30 days and +2 for < 60 days, totalling 5), and the spec's
scenario — account 10 days old, one successful login with one location and
one device — yields risk score exactly 5, level `MEDIUM`. -/
theorem ageSignals_stack_and_scenario :
    (∀ (now : Nat) (user : User),
      FraudDetectionService.accountAgeInDays now user < 30 →
      FraudDetectionService.ageSignal now user = 5) ∧
    FraudDetectionService.calculateRiskScore (10 * dayMillis) ⟨0, []⟩
      [⟨"LOGIN_ATTEMPT", true, 10 * dayMillis, none, some "user-1",
        some "New York", some "Mozilla"⟩] = 5 ∧
    FraudDetectionService.determineRiskLevel 5 =
      FraudDetectionService.RiskLevel.MEDIUM := by
  refine ⟨fun now user h => ?_, ?_, by decide⟩
  · have h60 : FraudDetectionService.accountAgeInDays now user < 60 :=
      lt_trans h (by norm_num)
    unfold FraudDetectionService.ageSignal
    rw [if_pos h, if_pos h60]
    norm_num
  · have hage : FraudDetectionService.accountAgeInDays (10 * dayMillis)
        ⟨0, []⟩ < 30 := by
      unfold FraudDetectionService.accountAgeInDays dayMillis
      norm_num
    have h60 : FraudDetectionService.accountAgeInDays (10 * dayMillis)
        ⟨0, []⟩ < 60 := by
      unfold FraudDetectionService.accountAgeInDays dayMillis
      norm_num
    unfold FraudDetectionService.calculateRiskScore mathMin mathMax
      FraudDetectionService.rawRiskScore FraudDetectionService.ageSignal
      FraudDetectionService.failedLoginSignal FraudDetectionService.locationSignal
      FraudDetectionService.deviceSignal FraudDetectionService.timeSignal mathMin
    rw [if_pos hage, if_pos h60]
    norm_num [show FraudDetectionService.failedLogins
        [⟨"LOGIN_ATTEMPT", true, 10 * dayMillis, none, some "user-1",
          some "New York", some "Mozilla"⟩] = [] from rfl,
      show (FraudDetectionService.uniqueLoginLocations
        [⟨"LOGIN_ATTEMPT", true, 10 * dayMillis, none, some "user-1",
          some "New York", some "Mozilla"⟩]).length = 1 from rfl,
      show (FraudDetectionService.uniqueDevices
        [⟨"LOGIN_ATTEMPT", true, 10 * dayMillis, none, some "user-1",
          some "New York", some "Mozilla"⟩]).length = 1 from rfl,
      show FraudDetectionService.irregularTimePatternCount
        [⟨"LOGIN_ATTEMPT", true, 10 * dayMillis, none, some "user-1",
          some "New York", some "Mozilla"⟩] = 1 from rfl]

/-- Witness for C6 at a concrete 10-day-old account. -/
theorem ageSignals_stack_and_scenario_witness :
    FraudDetectionService.ageSignal (10 * dayMillis) ⟨0, []⟩ = 5 :=
  ageSignals_stack_and_scenario.1 (10 * dayMillis) ⟨0, []⟩ (by
    unfold FraudDetectionService.accountAgeInDays dayMillis
    norm_num)

/-- Witness for C1 at concrete scores. -/
theorem riskScore_bounded_and_level_thresholds_witness :
    FraudDetectionService.levelIndex (FraudDetectionService.determineRiskLevel 1) ≤
      FraudDetectionService.levelIndex (FraudDetectionService.determineRiskLevel 6) ∧
    FraudDetectionService.determineRiskLevel 1 = .LOW ∧
    FraudDetectionService.determineRiskLevel 3 = .MEDIUM ∧
    FraudDetectionService.determineRiskLevel 6 = .HIGH ∧
    FraudDetectionService.determineRiskLevel 8 = .CRITICAL := by
  refine ⟨riskScore_bounded_and_level_thresholds.2.1 1 6 (by norm_num), ?_, ?_, ?_, ?_⟩
  · exact (riskScore_bounded_and_level_thresholds.2.2 1).1 (by norm_num)
  · exact (riskScore_bounded_and_level_thresholds.2.2 3).2.1 (by norm_num) (by norm_num)
  · exact (riskScore_bounded_and_level_thresholds.2.2 6).2.2.1 (by norm_num) (by norm_num)
  · exact (riskScore_bounded_and_level_thresholds.2.2 8).2.2.2 (by norm_num)

namespace EventSecurityService

/-- The result of `checkRegistrationRateLimit`. -/
structure RateLimitResult where
  allowed : Bool
  message : Option String
deriving DecidableEq

/-- `Event.countDocuments({ participants: userId, createdAt: { $gte:
now - 24h } })`: how many events the subject registered for in the
trailing 24 hours. -/
def countRecentRegistrations (now : Nat) (userId : String)
    (events : List EventDoc) : Nat :=
  (events.filter (fun ev =>
    ev.participants.contains userId &&
      decide (now - dayMillis ≤ ev.createdAt))).length

/-- `EventSecurityService.checkRegistrationRateLimit`: deny with a message
when the trailing-24h registration count reaches 10. -/
def checkRegistrationRateLimit (now : Nat) (userId : String)
    (events : List EventDoc) : RateLimitResult :=
  if 10 ≤ countRecentRegistrations now userId events then
    ⟨false, some "Registration limit exceeded. Please try again later."⟩
  else ⟨true, none⟩

/-- The result of `assessRegistrationRisk`. -/
structure RiskAssessment where
  riskLevel : FraudDetectionService.RiskLevel
  riskScore : Nat
  requiresAdditionalVerification : Bool
deriving DecidableEq

/-- `if (accountAgeInDays < 30) riskScore += 2` in
`assessRegistrationRisk` (same age formula as the fraud service). -/
def registrationAgeSignal (now : Nat) (user : User) : Nat :=
  if FraudDetectionService.accountAgeInDays now user < 30 then 2 else 0

/-- `if (pastEventCount < 3) riskScore += 1`. -/
def pastEventSignal (user : User) : Nat :=
  if user.registeredEvents.length < 3 then 1 else 0

/-- `if (registrationPercentage > 0.9) riskScore += 1`, with
`registrationPercentage = event.participants.length / event.capacity`.
The `capacity = 0` branch mirrors the JavaScript float semantics:
`n / 0 = Infinity > 0.9` for `n > 0`, and `0 / 0 = NaN`, which compares
false. -/
def capacitySignal (event : EventDoc) : Nat :=
  if event.capacity = 0 then
    (if event.participants.length = 0 then 0 else 1)
  else if (9 : ℚ) / 10 <
      (event.participants.length : ℚ) / (event.capacity : ℚ) then 1
  else 0

/-- The accumulated `riskScore` of `assessRegistrationRisk`. -/
def assessRegistrationRiskScore (now : Nat) (user : User)
    (event : EventDoc) : Nat :=
  registrationAgeSignal now user + pastEventSignal user +
    capacitySignal event

/-- `let riskLevel = 'LOW'; if (riskScore > 3) riskLevel = 'HIGH';
else if (riskScore > 1) riskLevel = 'MEDIUM';` -/
def registrationRiskLevel (score : Nat) : FraudDetectionService.RiskLevel :=
  if 3 < score then .HIGH else if 1 < score then .MEDIUM else .LOW

/-- `EventSecurityService.assessRegistrationRisk`: level, score, and
`requiresAdditionalVerification: riskLevel !== 'LOW'`. -/
def assessRegistrationRisk (now : Nat) (user : User) (event : EventDoc) :
    RiskAssessment :=
  ⟨registrationRiskLevel (assessRegistrationRiskScore now user event),
   assessRegistrationRiskScore now user event,
   decide (registrationRiskLevel (assessRegistrationRiskScore now user event) ≠
     FraudDetectionService.RiskLevel.LOW)⟩

/-- The result of `detectSuspiciousRegistrations`. -/
structure SuspiciousRegistrations where
  suspiciousRegistrations : List (Option String)
  potentialFraud : Bool
deriving DecidableEq

/-- `EventSecurityService.detectSuspiciousRegistrations(eventId)` as the
source executes it: the first `$match` stage of the aggregation it builds
evaluates `mongoose.Types.ObjectId(eventId)`, but this module only
requires `crypto`, `Event`, `User` and `AuditLogService` — `mongoose` is
unbound — so every call throws `ReferenceError: mongoose is not defined`
before any query runs, and the `catch` logs and re-throws it. The
group-participants-by-IP aggregation and the `potentialFraud` result
after it are dead code: no `SuspiciousRegistrations` value is ever
produced. -/
def detectSuspiciousRegistrations (_eventId : String) :
    Except String SuspiciousRegistrations :=
  Except.error "ReferenceError: mongoose is not defined"

/-- The result object `performEventSecurityCheck`'s `return` would
build. -/
structure SecurityCheckResult where
  allowed : Bool
  rateLimit : RateLimitResult
  riskAssessment : RiskAssessment
  suspiciousRegistrations : SuspiciousRegistrations
deriving DecidableEq

/-- `EventSecurityService.performEventSecurityCheck(userId, eventId)`:
`Promise.all` of the three sub-checks, then
`allowed: rateLimit.allowed && !suspiciousRegistrations.potentialFraud`.
The rate-limit and risk sub-checks complete, but
`detectSuspiciousRegistrations` always rejects, so the `Promise.all`
rejects, the `catch` re-throws, and the `return { allowed: ... }` line is
never reached. -/
def performEventSecurityCheck (now : Nat) (userId : String) (user : User)
    (event : EventDoc) (allEvents : List EventDoc) (eventId : String) :
    Except String SecurityCheckResult := do
  let rateLimit ← Except.ok (checkRegistrationRateLimit now userId allEvents)
  let riskAssessment ← Except.ok (assessRegistrationRisk now user event)
  let suspicious ← detectSuspiciousRegistrations eventId
  pure ⟨rateLimit.allowed && !suspicious.potentialFraud, rateLimit,
    riskAssessment, suspicious⟩

end EventSecurityService

/-- C3 (code bug): the Registration Guard never yields the claimed
decision. `detectSuspiciousRegistrations` throws on every call (`mongoose`
is not bound in its module), so the `Promise.all` inside
`performEventSecurityCheck` rejects and the error is re-thrown: the
`allowed = rateLimitOk && !fraud` record the claim describes is dead
code, and no `Except.ok` result exists for any input. -/
theorem performEventSecurityCheck_never_decides :
    (∀ (now : Nat) (userId : String) (user : User) (event : EventDoc)
       (allEvents : List EventDoc) (eventId : String),
      EventSecurityService.performEventSecurityCheck now userId user event
        allEvents eventId =
        Except.error "ReferenceError: mongoose is not defined") ∧
    (∀ result : EventSecurityService.SecurityCheckResult,
      EventSecurityService.performEventSecurityCheck 0 "user-1" ⟨0, []⟩
        ⟨[], 0, 0⟩ [] "event-1" ≠ Except.ok result) := by
  refine ⟨fun _ _ _ _ _ _ => rfl, fun result h => ?_⟩
  rw [show EventSecurityService.performEventSecurityCheck 0 "user-1" ⟨0, []⟩
      ⟨[], 0, 0⟩ [] "event-1" =
      Except.error "ReferenceError: mongoose is not defined" from rfl] at h
  exact Except.noConfusion h

/-- A batch of 10 event registrations by `user-1`, all at time 0. -/
def tenRegistrations : List EventDoc :=
  List.replicate 10 ⟨["user-1"], 100, 0⟩

/-- C4 (code bug): neither branch of the claim is ever observable in the
guard's decision. With 10 trailing-24h registrations the guard throws
(the `ReferenceError` from `detectSuspiciousRegistrations`) instead of
returning `allowed = false`; and for a MEDIUM-risk subject with no
rate-limit or fraud violation — whose risk sub-check alone does compute
`requiresAdditionalVerification = true` — the composite throws instead of
returning `allowed = true`. -/
theorem registrationGuard_no_decision :
    EventSecurityService.countRecentRegistrations 0 "user-1"
      tenRegistrations = 10 ∧
    EventSecurityService.performEventSecurityCheck 0 "user-1" ⟨0, []⟩
      ⟨[], 0, 0⟩ tenRegistrations "event-1" =
      Except.error "ReferenceError: mongoose is not defined" ∧
    (EventSecurityService.assessRegistrationRisk 0 ⟨0, ["e1", "e2", "e3"]⟩
      ⟨[], 0, 0⟩).riskLevel = FraudDetectionService.RiskLevel.MEDIUM ∧
    (EventSecurityService.assessRegistrationRisk 0 ⟨0, ["e1", "e2", "e3"]⟩
      ⟨[], 0, 0⟩).requiresAdditionalVerification = true ∧
    EventSecurityService.performEventSecurityCheck 0 "user-1"
      ⟨0, ["e1", "e2", "e3"]⟩ ⟨[], 0, 0⟩ [] "event-1" =
      Except.error "ReferenceError: mongoose is not defined" := by
  have hage : FraudDetectionService.accountAgeInDays 0
      ⟨0, ["e1", "e2", "e3"]⟩ < 30 := by
    unfold FraudDetectionService.accountAgeInDays
    norm_num
  refine ⟨by decide, rfl, ?_, ?_, rfl⟩
  · simp [EventSecurityService.assessRegistrationRisk,
      EventSecurityService.assessRegistrationRiskScore,
      EventSecurityService.registrationAgeSignal,
      EventSecurityService.pastEventSignal,
      EventSecurityService.capacitySignal,
      EventSecurityService.registrationRiskLevel, hage]
  · simp [EventSecurityService.assessRegistrationRisk,
      EventSecurityService.assessRegistrationRiskScore,
      EventSecurityService.registrationAgeSignal,
      EventSecurityService.pastEventSignal,
      EventSecurityService.capacitySignal,
      EventSecurityService.registrationRiskLevel, hage]

/-- The payload `{ eventId, userId, timestamp: Date.now() }` that both
`generateEventAccessToken` and `validateEventAccessToken` serialise and
hash. -/
structure TokenPayload where
  eventId : String
  userId : String
  timestamp : Nat
deriving DecidableEq

/-- The `{ accessToken, expiresAt }` object returned by
`generateEventAccessToken`. -/
structure AccessTokenResult (β : Type) where
  accessToken : β
  expiresAt : Nat

namespace EventSecurityService

/-- `EventSecurityService.generateEventAccessToken(eventId, userId)`:
`hash` stands for
`crypto.createHash('sha256').update(JSON.stringify(payload) + secret)
.digest('hex')` — an arbitrary function of the payload and the secret.
`now` is the `Date.now()` read at issuance; `expiresAt` is 24 h later. -/
def generateEventAccessToken {β : Type} (hash : TokenPayload → String → β)
    (secret : String) (eventId userId : String) (now : Nat) :
    AccessTokenResult β :=
  ⟨hash ⟨eventId, userId, now⟩ secret, now + 24 * 60 * 60 * 1000⟩

/-- `EventSecurityService.validateEventAccessToken(token, eventId,
userId)`: recomputes the hash from a payload whose `timestamp` is the
`Date.now()` of the *validation* call (`now` here), and compares with
`===`. -/
def validateEventAccessToken {β : Type} [DecidableEq β]
    (hash : TokenPayload → String → β) (secret : String) (token : β)
    (eventId userId : String) (now : Nat) : Bool :=
  decide (token = hash ⟨eventId, userId, now⟩ secret)

end EventSecurityService

/-- C5: `validateEventAccessToken` hashes the validation-time timestamp,
not the one embedded at issuance: whenever the serialise-and-hash step is
collision-free in the payload, the round trip
`validate (issue eventId userId).accessToken eventId userId` succeeds iff
the validation call carries exactly the issuance timestamp, and returns
`false` at every other validation time. -/
theorem token_roundtrip_same_millis_only :
    ∀ {β : Type} [DecidableEq β]
      (hash : TokenPayload → String → β) (secret eventId userId : String)
      (t1 t2 : Nat),
      (∀ s : String, Function.Injective (fun p => hash p s)) →
      ((EventSecurityService.validateEventAccessToken hash secret
          (EventSecurityService.generateEventAccessToken hash secret eventId
            userId t1).accessToken eventId userId t2 = true ↔ t2 = t1) ∧
       (t2 ≠ t1 →
        EventSecurityService.validateEventAccessToken hash secret
          (EventSecurityService.generateEventAccessToken hash secret eventId
            userId t1).accessToken eventId userId t2 = false)) := by
  intro β _inst hash secret eventId userId t1 t2 hinj
  have hiff : EventSecurityService.validateEventAccessToken hash secret
      (EventSecurityService.generateEventAccessToken hash secret eventId
        userId t1).accessToken eventId userId t2 = true ↔ t2 = t1 := by
    unfold EventSecurityService.validateEventAccessToken
      EventSecurityService.generateEventAccessToken
    rw [decide_eq_true_iff]
    constructor
    · intro h
      have hp := hinj secret h
      exact (congrArg TokenPayload.timestamp hp).symm
    · intro h
      rw [h]
  refine ⟨hiff, fun hne => ?_⟩
  rcases hb : EventSecurityService.validateEventAccessToken hash secret
      (EventSecurityService.generateEventAccessToken hash secret eventId
        userId t1).accessToken eventId userId t2 with _ | _
  · rfl
  · exact absurd (hiff.mp hb) hne

/-- Witness for C5 with the identity serialisation: a token issued at
millisecond 0 fails validation at millisecond 1 and passes at 0. -/
theorem token_roundtrip_same_millis_only_witness :
    EventSecurityService.validateEventAccessToken
      (fun (p : TokenPayload) (_ : String) => p) "secret"
      (EventSecurityService.generateEventAccessToken
        (fun (p : TokenPayload) (_ : String) => p) "secret" "event-1"
        "user-1" 0).accessToken "event-1" "user-1" 1 = false ∧
    EventSecurityService.validateEventAccessToken
      (fun (p : TokenPayload) (_ : String) => p) "secret"
      (EventSecurityService.generateEventAccessToken
        (fun (p : TokenPayload) (_ : String) => p) "secret" "event-1"
        "user-1" 0).accessToken "event-1" "user-1" 0 = true :=
  ⟨(token_roundtrip_same_millis_only (fun p _ => p) "secret" "event-1"
      "user-1" 0 1 (fun _ _ _ hab => hab)).2 (by decide),
   (token_roundtrip_same_millis_only (fun p _ => p) "secret" "event-1"
      "user-1" 0 0 (fun _ _ _ hab => hab)).1.mpr rfl⟩

namespace AuditLogService

/-- The audit-log document `AuditLogService.log` builds: the destructured
options with the source's defaults (`details = {}` when absent — details
kept abstract as a string payload — and `success = true` when absent). -/
structure AuditLogEntry where
  userId : Option String
  username : Option String
  email : Option String
  role : Option String
  action : String
  details : String
  ipAddress : Option String
  userAgent : Option String
  success : Bool
deriving DecidableEq

/-- The options object accepted by `AuditLogService.log`; `none` in
`details` or `success` means the key is absent and the default applies. -/
structure LogOptions where
  userId : Option String
  username : Option String
  email : Option String
  role : Option String
  action : String
  details : Option String
  ipAddress : Option String
  userAgent : Option String
  success : Option Bool
deriving DecidableEq

/-- `new AuditLog({ user: {...}, action, details, ipAddress, userAgent,
success })` with the defaults `details = {}` and `success = true`. -/
def mkAuditLog (o : LogOptions) : AuditLogEntry :=
  ⟨o.userId, o.username, o.email, o.role, o.action, o.details.getD "{}",
   o.ipAddress, o.userAgent, o.success.getD true⟩

/-- `AuditLogService.log(options)`: `await auditLog.save()` inside
`try { ... } catch (error) { console.error(...) }` — `persist` stands for
the save against the store, which may fail. On success the saved entry is
returned; a failure is caught, only logged, and the call returns
`undefined` (`none`) instead of re-throwing. -/
def log (persist : AuditLogEntry → Except String AuditLogEntry)
    (o : LogOptions) : Except String (Option AuditLogEntry) :=
  match persist (mkAuditLog o) with
  | .ok saved => .ok (some saved)
  | .error _ => .ok none

end AuditLogService

/-- C9: `AuditLogService.log` never propagates a failure: whatever the
persistence outcome, the call returns normally (`Except.ok`), so a
decision path sequenced after the logging call always completes with its
own result; on a persistence error the entry is dropped (`none`) and the
error swallowed. -/
theorem auditLog_log_never_fails :
    ∀ (persist : AuditLogService.AuditLogEntry →
        Except String AuditLogService.AuditLogEntry)
      (o : AuditLogService.LogOptions),
      (∃ v, AuditLogService.log persist o = Except.ok v) ∧
      (∀ (α : Type) (decision : α),
        ((AuditLogService.log persist o).bind
          (fun _ => Except.ok decision)) = Except.ok decision) ∧
      (∀ saved, persist (AuditLogService.mkAuditLog o) = Except.ok saved →
        AuditLogService.log persist o = Except.ok (some saved)) ∧
      (∀ msg, persist (AuditLogService.mkAuditLog o) = Except.error msg →
        AuditLogService.log persist o = Except.ok none) := by
  intro persist o
  rcases hp : persist (AuditLogService.mkAuditLog o) with msg | saved <;>
    refine ⟨?_, fun α d => ?_, fun s hs => ?_, fun m hm => ?_⟩ <;>
      simp_all [AuditLogService.log, Except.bind]

/-- Witness for C9: with a sink that always fails, `log` still returns
normally (with `none`) and the downstream decision is unchanged. -/
theorem auditLog_log_never_fails_witness :
    AuditLogService.log (fun _ => Except.error "sink down")
      ⟨some "user-1", none, none, none, "LOGIN_ATTEMPT", none, none, none,
        none⟩ = Except.ok none ∧
    ((AuditLogService.log (fun _ => Except.error "sink down")
      ⟨some "user-1", none, none, none, "LOGIN_ATTEMPT", none, none, none,
        none⟩).bind (fun _ => Except.ok true)) = Except.ok true :=
  ⟨(auditLog_log_never_fails (fun _ => Except.error "sink down")
      ⟨some "user-1", none, none, none, "LOGIN_ATTEMPT", none, none, none,
        none⟩).2.2.2 "sink down" rfl,
   (auditLog_log_never_fails (fun _ => Except.error "sink down")
      ⟨some "user-1", none, none, none, "LOGIN_ATTEMPT", none, none, none,
        none⟩).2.1 Bool true⟩

namespace FraudDetectionService

/-- `new Set(suspiciousActivities.docs.map(log => log.details?.userAgent))`
in the contextual checks of `detectSuspiciousUserActivity`: no
`.filter(Boolean)`, so a missing value stays in the set as `undefined`. -/
def contextualDeviceValues (docs : List AuditEvent) : List (Option String) :=
  (docs.map (fun log => log.userAgent)).dedup

/-- `new Set(suspiciousActivities.docs.map(log => log.details?.location))`
in the contextual checks of `detectSuspiciousUserActivity`: again without
`.filter(Boolean)`. -/
def contextualLocationValues (docs : List AuditEvent) :
    List (Option String) :=
  (docs.map (fun log => log.location)).dedup

/-- The `contextualRisks` object of `detectSuspiciousUserActivity`:
`multipleDevices: set.size > 2`, `geographicalInconsistency:
set.size > 2`. -/
structure ContextualRisks where
  multipleDevices : Bool
  geographicalInconsistency : Bool
deriving DecidableEq

/-- The two contextual boolean flags, both with the `> 2` threshold. -/
def contextualRisks (docs : List AuditEvent) : ContextualRisks :=
  ⟨decide (2 < (contextualDeviceValues docs).length),
   decide (2 < (contextualLocationValues docs).length)⟩

/-- The object returned by `detectSuspiciousUserActivity`. -/
structure DetectionResult where
  riskScore : ℚ
  riskLevel : RiskLevel
  contextualRisks : ContextualRisks
  suspiciousActivitiesCount : Nat

/-- `FraudDetectionService.detectSuspiciousUserActivity(userId)`, once the
trailing-24h documents `docs` for the subject have been fetched: runs the
Risk Scorer on the very same `docs` and adds the two contextual flags. -/
def detectSuspiciousUserActivity (now : Nat) (user : User)
    (docs : List AuditEvent) : DetectionResult :=
  ⟨calculateRiskScore now user docs,
   determineRiskLevel (calculateRiskScore now user docs),
   contextualRisks docs,
   docs.length⟩

end FraudDetectionService

/-- Three events with three distinct user agents and three distinct
locations: above the contextual `> 2` threshold, at the risk-signal `> 3`
threshold. -/
def threeDistinctDevices : List AuditEvent :=
  [⟨"API_ACCESS", true, 0, none, some "user-1", some "L1", some "A1"⟩,
   ⟨"API_ACCESS", true, 0, none, some "user-1", some "L2", some "A2"⟩,
   ⟨"API_ACCESS", true, 0, none, some "user-1", some "L3", some "A3"⟩]

/-- C8: on the same document set, the contextual flags of
`detectSuspiciousUserActivity` use the strict `> 2` threshold on distinct
devices/locations while `calculateRiskScore`'s own device and location
signals use the strict `> 3` threshold; the two thresholds are genuinely
different — a set with exactly 3 distinct devices and locations trips the
contextual flags but contributes nothing to the risk score. -/
theorem contextual_thresholds_distinct :
    (∀ (now : Nat) (user : User) (docs : List AuditEvent),
      ((FraudDetectionService.detectSuspiciousUserActivity now user
          docs).contextualRisks.multipleDevices = true ↔
        2 < (FraudDetectionService.contextualDeviceValues docs).length) ∧
      ((FraudDetectionService.detectSuspiciousUserActivity now user
          docs).contextualRisks.geographicalInconsistency = true ↔
        2 < (FraudDetectionService.contextualLocationValues docs).length) ∧
      (FraudDetectionService.deviceSignal docs = 1 ↔
        3 < (FraudDetectionService.uniqueDevices docs).length) ∧
      (FraudDetectionService.locationSignal docs = 1 ↔
        3 < (FraudDetectionService.uniqueLoginLocations docs).length) ∧
      (FraudDetectionService.detectSuspiciousUserActivity now user
          docs).riskScore =
        FraudDetectionService.calculateRiskScore now user docs) ∧
    ((FraudDetectionService.contextualRisks
        threeDistinctDevices).multipleDevices = true ∧
     FraudDetectionService.deviceSignal threeDistinctDevices = 0 ∧
     (FraudDetectionService.contextualRisks
        threeDistinctDevices).geographicalInconsistency = true ∧
     FraudDetectionService.locationSignal threeDistinctDevices = 0) := by
  constructor
  · intro now user docs
    refine ⟨?_, ?_, ?_, ?_, rfl⟩
    · simp [FraudDetectionService.detectSuspiciousUserActivity,
        FraudDetectionService.contextualRisks]
    · simp [FraudDetectionService.detectSuspiciousUserActivity,
        FraudDetectionService.contextualRisks]
    · unfold FraudDetectionService.deviceSignal
      split_ifs with h <;> simp [h]
    · unfold FraudDetectionService.locationSignal
      split_ifs with h <;> simp [h]
  · refine ⟨by decide, ?_, by decide, ?_⟩
    · unfold FraudDetectionService.deviceSignal
      rw [if_neg (by decide)]
    · unfold FraudDetectionService.locationSignal
      rw [if_neg (by decide)]

/-- For a list of optional values, the number of distinct elements equals
the number of distinct present values, plus one more when `none` occurs
in the list. -/
theorem dedup_length_filterMap_id (l : List (Option String)) :
    l.dedup.length =
      (l.filterMap id).dedup.length + (if none ∈ l then 1 else 0) := by
  induction l with
  | nil => simp
  | cons a l ih =>
    cases a with
    | none =>
      by_cases h : (none : Option String) ∈ l
      · rw [List.dedup_cons_of_mem h]
        simp only [List.filterMap_cons, id_eq]
        rw [ih, if_pos h]
        simp
      · rw [List.dedup_cons_of_not_mem h]
        simp only [List.filterMap_cons, id_eq]
        rw [List.length_cons, ih, if_neg h]
        simp
    | some x =>
      have hmem : some x ∈ l ↔ x ∈ l.filterMap id := by
        simp [List.mem_filterMap]
      by_cases h : some x ∈ l
      · rw [List.dedup_cons_of_mem h]
        simp only [List.filterMap_cons, id_eq]
        rw [List.dedup_cons_of_mem (hmem.mp h), ih]
        simp [List.mem_cons]
      · rw [List.dedup_cons_of_not_mem h]
        simp only [List.filterMap_cons, id_eq]
        rw [List.dedup_cons_of_not_mem (fun hc => h (hmem.mpr hc)),
          List.length_cons, List.length_cons, ih]
        simp [List.mem_cons]
        omega

/-- Two distinct real user agents plus one event with no user agent at
all (and likewise for locations). -/
def twoAgentsOneMissing : List AuditEvent :=
  [⟨"API_ACCESS", true, 0, none, some "user-1", some "L1", some "A1"⟩,
   ⟨"API_ACCESS", true, 0, none, some "user-1", some "L2", some "A2"⟩,
   ⟨"API_ACCESS", true, 0, none, some "user-1", none, none⟩]

/-- C10: the contextual sets of `detectSuspiciousUserActivity` are built
without filtering out missing values — the distinct count equals the
distinct count of present values plus one whenever some event lacks the
field — unlike `calculateRiskScore`, which filters them out; with exactly
2 distinct real user agents plus one event missing its user agent, the
`multipleDevices` flag fires even though only 2 real devices appear (and
the risk scorer's own distinct-device set has size 2). -/
theorem contextual_counts_missing_values :
    (∀ docs : List AuditEvent,
      (FraudDetectionService.contextualDeviceValues docs).length =
        ((docs.map (fun log => log.userAgent)).filterMap id).dedup.length +
          (if none ∈ docs.map (fun log => log.userAgent) then 1 else 0) ∧
      (FraudDetectionService.contextualLocationValues docs).length =
        ((docs.map (fun log => log.location)).filterMap id).dedup.length +
          (if none ∈ docs.map (fun log => log.location) then 1 else 0)) ∧
    ((FraudDetectionService.contextualRisks
        twoAgentsOneMissing).multipleDevices = true ∧
     ((twoAgentsOneMissing.map
        (fun log => log.userAgent)).filterMap id).dedup.length = 2 ∧
     (FraudDetectionService.uniqueDevices twoAgentsOneMissing).length = 2 ∧
     FraudDetectionService.deviceSignal twoAgentsOneMissing = 0) := by
  constructor
  · intro docs
    exact ⟨dedup_length_filterMap_id
        (docs.map (fun log : AuditEvent => log.userAgent)),
      dedup_length_filterMap_id
        (docs.map (fun log : AuditEvent => log.location))⟩
  · refine ⟨by decide, by decide, by decide, ?_⟩
    unfold FraudDetectionService.deviceSignal
    rw [if_neg (by decide)]
